import Mathlib

/-!
Verification of `livekit-plugins-spatialreal` (`src/livekit/plugins/spatialreal/avatar.py`).

The module defines one class, `AvatarSession`, an audio relay between a
voice-agent session and the SpatialReal avatar service.  We embed its
behaviour shallowly:

* pure data (configuration resolution, the connection descriptor) becomes
  plain Lean structures and functions;
* each coroutine (`__init__`-level construction, `start`, the forwarding
  loop `_run_main_task`, `_handle_interrupt`, `aclose`) becomes a Lean
  function from the object state plus a *behaviour* record — Booleans
  saying which collaborator calls raise — to a result record holding the
  new object state, the trace of collaborator calls made in program
  order, and the exception (if any) that propagates to the caller.

Exceptions raised by awaited collaborator calls are modelled by the
behaviour flags; a raised exception aborts the remaining statements of
the embedded routine exactly where the Python `try`/`except` structure
says it does.
-/

namespace SpatialReal

/-- Default avatar participant identity (`DEFAULT_AVATAR_PARTICIPANT_IDENTITY`). -/
def DEFAULT_AVATAR_PARTICIPANT_IDENTITY : String := "spatialreal-avatar"

/-- Default TTS sample rate (`DEFAULT_SAMPLE_RATE`). -/
def DEFAULT_SAMPLE_RATE : Nat := 24000

/-- Default console endpoint (`DEFAULT_CONSOLE_ENDPOINT`). -/
def DEFAULT_CONSOLE_ENDPOINT : String := "https://console.us-west.spatialwalk.cloud/v1/console"

/-- Default ingress endpoint (`DEFAULT_INGRESS_ENDPOINT`). -/
def DEFAULT_INGRESS_ENDPOINT : String := "wss://api.us-west.spatialwalk.cloud/v2/driveningress"

/-- Exceptions the embedded code can raise: the module's own
`SpatialRealException`, or an arbitrary exception raised by a collaborator
call (`init`, `start`, `send_audio`, `interrupt`, `close`, buffer close). -/
inductive PyError where
  | spatialRealException (msg : String)
  | collaboratorError (msg : String)
deriving DecidableEq, Repr

/-- Python truthiness of an optional string: `None` and `""` are falsy. -/
def truthy : Option String → Bool
  | none => false
  | some s => !(s == "")

/-- Python `a or b` on optional strings: `a` if truthy, else `b`. -/
def pyOr (a b : Option String) : Option String :=
  if truthy a then a else b

/-- An item of the audio buffer consumed by `_run_main_task`: either an
`rtc.AudioFrame` (its payload bytes) or an `AudioSegmentEnd` marker. -/
inductive AudioItem where
  | audioFrame (data : List Nat)
  | audioSegmentEnd
deriving DecidableEq, Repr

/-- Calls and log lines produced by the forwarding loop, in program order. -/
inductive RelayEvent where
  | sendAudio (audio : List Nat) (endFlag : Bool)
  | notifyPlaybackFinished (playbackPosition : ℚ) (interrupted : Bool)
  | logDebugFirstFrame
  | logDebugSegmentEnd
  | logErrorMainTask
deriving DecidableEq, Repr

/-- Is this event a `send_audio` call on the avatar connection? -/
def RelayEvent.isSend : RelayEvent → Bool
  | .sendAudio _ _ => true
  | _ => false

/-- Is this event a `notify_playback_finished` call on the audio buffer? -/
def RelayEvent.isNotify : RelayEvent → Bool
  | .notifyPlaybackFinished _ _ => true
  | _ => false

/-- The body of the `async for` loop of `AvatarSession._run_main_task`,
iterated over the buffered items.  Each item carries a flag saying whether
its `send_audio` call raises (a non-cancellation exception).  The whole
loop sits inside `try: ... except Exception: logger.error(...)`, so a
raising send emits the call, then the error log, and ends the loop; the
exception does not escape `_run_main_task`.  Returns the trace, the final
`frame_count`, and whether the loop was terminated by an exception. -/
def forwardItems : Nat → List (AudioItem × Bool) → List RelayEvent × Nat × Bool
  | frameCount, [] => ([], frameCount, false)
  | frameCount, (AudioItem.audioFrame data, sendRaises) :: rest =>
      let fc := frameCount + 1
      let dbg : List RelayEvent := if fc == 1 then [RelayEvent.logDebugFirstFrame] else []
      if sendRaises then
        (dbg ++ [RelayEvent.sendAudio data false, RelayEvent.logErrorMainTask], fc, true)
      else
        let r := forwardItems fc rest
        (dbg ++ RelayEvent.sendAudio data false :: r.1, r.2)
  | frameCount, (AudioItem.audioSegmentEnd, sendRaises) :: rest =>
      if sendRaises then
        ([RelayEvent.logDebugSegmentEnd, RelayEvent.sendAudio [] true,
          RelayEvent.logErrorMainTask], frameCount, true)
      else
        let r := forwardItems 0 rest
        (RelayEvent.logDebugSegmentEnd :: RelayEvent.sendAudio [] true ::
           RelayEvent.notifyPlaybackFinished 0 false :: r.1, r.2)

/-- `_run_main_task` starts with `frame_count = 0` (after the guard on
`_audio_buffer` and `_avatarkit_session`, both set whenever the task is
spawned by `start`). -/
def runMainTask (items : List (AudioItem × Bool)) : List RelayEvent × Nat × Bool :=
  forwardItems 0 items

/-- A queue of `N` audio frames, none of whose sends raise. -/
def framesOf (bs : List (List Nat)) : List (AudioItem × Bool) :=
  bs.map (fun b => (AudioItem.audioFrame b, false))

/-- The sub-trace of `send_audio` calls (what the avatar connection observes). -/
def sendsOf (t : List RelayEvent) : List RelayEvent :=
  t.filter RelayEvent.isSend

/-- The `LiveKitEgressConfig` record built by `start`. -/
structure LiveKitEgressConfig where
  url : String
  apiKey : String
  apiSecret : String
  roomName : String
  publisherId : String
deriving DecidableEq, Repr

/-- The connection descriptor built by `new_avatar_session(...)` in `start`:
the arguments the avatar-service client session is created with.
`expireAt` is a UTC timestamp in seconds. -/
structure ConnDescriptor where
  apiKey : String
  appId : String
  avatarId : String
  consoleEndpointUrl : String
  ingressEndpointUrl : String
  expireAt : Nat
  livekitEgress : LiveKitEgressConfig
deriving DecidableEq, Repr

/-- The instance fields of `AvatarSession` (everything `__init__` assigns).
`agentSession` and `audioBuffer` hold opaque references, modelled as the
agent reference number and the buffer's sample rate; `mainTask` records
whether `_main_task` is a live task handle. -/
structure SessionFields where
  apiKey : String
  appId : String
  avatarId : String
  consoleEndpointUrl : String
  ingressEndpointUrl : String
  avatarParticipantIdentity : String
  avatarkitSession : Option ConnDescriptor
  agentSession : Option Nat
  audioBuffer : Option Nat
  mainTask : Bool
  initialized : Bool
deriving DecidableEq, Repr

/-- The process environment as read via `os.getenv` (absent variable =
`none`; a variable set to the empty string is `some ""`). -/
structure Env where
  spatialrealApiKey : Option String
  spatialrealAppId : Option String
  spatialrealAvatarId : Option String
  spatialrealConsoleEndpoint : Option String
  spatialrealIngressEndpoint : Option String
  livekitUrl : Option String
  livekitApiKey : Option String
  livekitApiSecret : Option String
deriving DecidableEq, Repr

/-- `AvatarSession.__init__`: resolve each field (explicit argument first,
environment fallback second, hardcoded default third where one exists) and
raise `SpatialRealException` for a missing required field.  The
constructor performs no collaborator call: it only resolves strings and
initialises the internal fields to their inert values, so a configuration
error is raised synchronously before any network activity. -/
def AvatarSession.construct
    (apiKey appId avatarId consoleEndpointUrl ingressEndpointUrl
      avatarParticipantIdentity : Option String) (env : Env) :
    Except PyError SessionFields :=
  let k := pyOr apiKey env.spatialrealApiKey
  if !truthy k then
    .error (.spatialRealException
      "api_key must be provided or SPATIALREAL_API_KEY environment variable must be set")
  else
    let a := pyOr appId env.spatialrealAppId
    if !truthy a then
      .error (.spatialRealException
        "app_id must be provided or SPATIALREAL_APP_ID environment variable must be set")
    else
      let v := pyOr avatarId env.spatialrealAvatarId
      if !truthy v then
        .error (.spatialRealException
          "avatar_id must be provided or SPATIALREAL_AVATAR_ID environment variable must be set")
      else
        .ok
          { apiKey := k.getD ""
            appId := a.getD ""
            avatarId := v.getD ""
            consoleEndpointUrl :=
              (pyOr (pyOr consoleEndpointUrl env.spatialrealConsoleEndpoint)
                (some DEFAULT_CONSOLE_ENDPOINT)).getD ""
            ingressEndpointUrl :=
              (pyOr (pyOr ingressEndpointUrl env.spatialrealIngressEndpoint)
                (some DEFAULT_INGRESS_ENDPOINT)).getD ""
            avatarParticipantIdentity :=
              (pyOr avatarParticipantIdentity
                (some DEFAULT_AVATAR_PARTICIPANT_IDENTITY)).getD ""
            avatarkitSession := none
            agentSession := none
            audioBuffer := none
            mainTask := false
            initialized := false }

/-- Calls and log lines `start` makes, in program order. -/
inductive StartEvent where
  | logWarnAlreadyInitialized
  | logInfoInitializing
  | connInit
  | connStart
  | logInfoConnected
  | bufferStart
  | spawnMainTask
  | logInfoAttached
deriving DecidableEq, Repr

/-- Which awaited collaborator calls raise during `start`. -/
structure StartBehavior where
  initRaises : Bool
  connStartRaises : Bool
deriving DecidableEq, Repr

/-- Outcome of a call to `start` or `aclose`: the object state afterwards,
the trace of events, and the exception propagating to the caller, if any. -/
structure CallResult (ev : Type) where
  state : SessionFields
  trace : List ev
  error : Option PyError
deriving Repr

/-- `AvatarSession.start(agent_session, room, ...)`.  `agentRef` stands for
the `agent_session` object, `ttsSampleRate` for `agent_session.tts.sample_rate`
(`none` when `agent_session.tts` is absent), `roomName` for `room.name`,
`now` for `datetime.now(timezone.utc)` in seconds.  Statements are modelled
in source order: the double-start guard; the assignment of
`_agent_session`; LiveKit credential resolution (raising
`SpatialRealException` when one is missing); descriptor construction with
`expire_at = now + 1 hour`; `await init()`; `await start()`; audio-buffer
creation and attachment; spawning `_run_main_task`; setting
`_initialized`.  A raise from `init()` or `start()` propagates: the
statements after it do not run. -/
def AvatarSession.start (st : SessionFields) (agentRef : Nat)
    (ttsSampleRate : Option Nat) (roomName : String)
    (livekitUrl livekitApiKey livekitApiSecret : Option String)
    (env : Env) (now : Nat) (b : StartBehavior) : CallResult StartEvent :=
  if st.initialized then
    { state := st, trace := [StartEvent.logWarnAlreadyInitialized], error := none }
  else
    let st1 := { st with agentSession := some agentRef }
    let lkUrl := pyOr livekitUrl env.livekitUrl
    let lkKey := pyOr livekitApiKey env.livekitApiKey
    let lkSecret := pyOr livekitApiSecret env.livekitApiSecret
    if !truthy lkUrl || !truthy lkKey || !truthy lkSecret then
      { state := st1, trace := [],
        error := some (.spatialRealException
          "livekit_url, livekit_api_key, and livekit_api_secret must be provided or LIVEKIT_URL, LIVEKIT_API_KEY, LIVEKIT_API_SECRET environment variables must be set") }
    else
      let egress : LiveKitEgressConfig :=
        { url := lkUrl.getD "", apiKey := lkKey.getD "",
          apiSecret := lkSecret.getD "", roomName := roomName,
          publisherId := st.avatarParticipantIdentity }
      let desc : ConnDescriptor :=
        { apiKey := st.apiKey, appId := st.appId, avatarId := st.avatarId,
          consoleEndpointUrl := st.consoleEndpointUrl,
          ingressEndpointUrl := st.ingressEndpointUrl,
          expireAt := now + 3600, livekitEgress := egress }
      let st2 := { st1 with avatarkitSession := some desc }
      if b.initRaises then
        { state := st2,
          trace := [StartEvent.logInfoInitializing, StartEvent.connInit],
          error := some (.collaboratorError "init failed") }
      else if b.connStartRaises then
        { state := st2,
          trace := [StartEvent.logInfoInitializing, StartEvent.connInit,
            StartEvent.connStart],
          error := some (.collaboratorError "start failed") }
      else
        let st3 := { st2 with
          audioBuffer := some (ttsSampleRate.getD DEFAULT_SAMPLE_RATE),
          mainTask := true, initialized := true }
        { state := st3,
          trace := [StartEvent.logInfoInitializing, StartEvent.connInit,
            StartEvent.connStart, StartEvent.logInfoConnected,
            StartEvent.bufferStart, StartEvent.spawnMainTask,
            StartEvent.logInfoAttached],
          error := none }

/-- Calls and log lines `aclose` makes, in program order. -/
inductive CloseEvent where
  | cancelMainTask
  | awaitMainTask
  | bufferClose
  | connClose
  | logInfoClosed
  | logWarnCloseError
deriving DecidableEq, Repr

/-- Which awaited collaborator calls raise during `aclose`. -/
structure CloseBehavior where
  bufferCloseRaises : Bool
  connCloseRaises : Bool
deriving DecidableEq, Repr

/-- The third block of `aclose`: `if self._avatarkit_session:` then
`try: await close(); log info; except: log warning; finally:
_avatarkit_session = None; _initialized = False`.  An exception from
`close()` is swallowed; the `finally` always resets the two fields. -/
def AvatarSession.closeConnStep (st : SessionFields) (t : List CloseEvent)
    (b : CloseBehavior) : CallResult CloseEvent :=
  match st.avatarkitSession with
  | some _ =>
      { state := { st with avatarkitSession := none, initialized := false }
        trace := t ++ [CloseEvent.connClose] ++
          (if b.connCloseRaises then [CloseEvent.logWarnCloseError]
           else [CloseEvent.logInfoClosed])
        error := none }
  | none => { state := st, trace := t, error := none }

/-- `AvatarSession.aclose()` in source order: (1) if `_main_task` is set,
cancel it, await it swallowing `CancelledError` (`_run_main_task` itself
catches every other exception, so the await raises nothing else), and
clear the handle; (2) if `_audio_buffer` is set, `await _audio_buffer.aclose()`
— this await is NOT wrapped in any `try`, so if it raises the exception
propagates out of `aclose` and the remaining statements do not run; else
clear the field; (3) the guarded connection-close block
(`AvatarSession.closeConnStep`). -/
def AvatarSession.aclose (st : SessionFields) (b : CloseBehavior) :
    CallResult CloseEvent :=
  let p : SessionFields × List CloseEvent :=
    if st.mainTask then
      ({ st with mainTask := false },
        [CloseEvent.cancelMainTask, CloseEvent.awaitMainTask])
    else (st, [])
  match p.1.audioBuffer with
  | some _ =>
      if b.bufferCloseRaises then
        { state := p.1, trace := p.2 ++ [CloseEvent.bufferClose],
          error := some (.collaboratorError "audio buffer aclose failed") }
      else
        AvatarSession.closeConnStep { p.1 with audioBuffer := none }
          (p.2 ++ [CloseEvent.bufferClose]) b
  | none => AvatarSession.closeConnStep p.1 p.2 b

/-- Calls and log lines `_handle_interrupt` makes. -/
inductive InterruptEvent where
  | connInterrupt
  | logDebugInterrupted
  | logWarnInterruptFailed
deriving DecidableEq, Repr

/-- `AvatarSession._handle_interrupt()`: return silently when
`_avatarkit_session` is unset; otherwise `await interrupt()` inside
`try: ... except Exception: logger.warning(...)`, so a failure is logged
and never propagates.  Returns the trace and the propagating exception
(always `none`). -/
def AvatarSession.handleInterrupt (sess : Option ConnDescriptor)
    (interruptRaises : Bool) : List InterruptEvent × Option PyError :=
  match sess with
  | none => ([], none)
  | some _ =>
      if interruptRaises then
        ([InterruptEvent.connInterrupt, InterruptEvent.logWarnInterruptFailed], none)
      else
        ([InterruptEvent.connInterrupt, InterruptEvent.logDebugInterrupted], none)

/-- The `clear_buffer` callback registered by `start`: each emitted
`clear_buffer` event spawns exactly one detached `_handle_interrupt` task.
`failures` has one flag per emitted event, saying whether that task's
`interrupt()` call raises; the result lists, per event, the spawned
task's trace and propagating exception. -/
def AvatarSession.onClearBuffer (sess : Option ConnDescriptor)
    (failures : List Bool) : List (List InterruptEvent × Option PyError) :=
  failures.map (fun f => AvatarSession.handleInterrupt sess f)

/-- A process environment with no relevant variable set. -/
def envEmpty : Env :=
  { spatialrealApiKey := none, spatialrealAppId := none,
    spatialrealAvatarId := none, spatialrealConsoleEndpoint := none,
    spatialrealIngressEndpoint := none, livekitUrl := none,
    livekitApiKey := none, livekitApiSecret := none }

/-- A process environment carrying only the three LiveKit credentials. -/
def envLk : Env :=
  { envEmpty with
    livekitUrl := some "wss://lk.example",
    livekitApiKey := some "lk-key", livekitApiSecret := some "lk-secret" }

/-- A freshly constructed session (the fields `construct` produces for
explicit `api_key="k"`, `app_id="a"`, `avatar_id="v"` in an empty
environment). -/
def stFresh : SessionFields :=
  { apiKey := "k", appId := "a", avatarId := "v",
    consoleEndpointUrl := DEFAULT_CONSOLE_ENDPOINT,
    ingressEndpointUrl := DEFAULT_INGRESS_ENDPOINT,
    avatarParticipantIdentity := DEFAULT_AVATAR_PARTICIPANT_IDENTITY,
    avatarkitSession := none, agentSession := none, audioBuffer := none,
    mainTask := false, initialized := false }

/-- A sample connection descriptor, as built by a successful `start` of
`stFresh` at time 0 with the `envLk` credentials and room `"room"`. -/
def descFresh : ConnDescriptor :=
  { apiKey := "k", appId := "a", avatarId := "v",
    consoleEndpointUrl := DEFAULT_CONSOLE_ENDPOINT,
    ingressEndpointUrl := DEFAULT_INGRESS_ENDPOINT,
    expireAt := 3600,
    livekitEgress :=
      { url := "wss://lk.example", apiKey := "lk-key",
        apiSecret := "lk-secret", roomName := "room",
        publisherId := DEFAULT_AVATAR_PARTICIPANT_IDENTITY } }

/-- An active session: `stFresh` after a successful `start`. -/
def stActive : SessionFields :=
  { stFresh with
    avatarkitSession := some descFresh, agentSession := some 0,
    audioBuffer := some DEFAULT_SAMPLE_RATE, mainTask := true,
    initialized := true }

/-- Number of `close()` calls on the avatar connection in an `aclose` trace. -/
def connCloseCount (t : List CloseEvent) : Nat :=
  t.count CloseEvent.connClose

/-- Did a construction attempt raise the module's `SpatialRealException`? -/
def isConfigError : Except PyError SessionFields → Bool
  | .error (.spatialRealException _) => true
  | _ => false

/- ### Helper lemmas -/

/-- Running the loop over a block of non-raising audio frames emits one
`send_audio(bytes, end=False)` per frame (plus log lines), then continues
with the frame counter advanced by the block length. -/
theorem forwardItems_frames (bs : List (List Nat)) (rest : List (AudioItem × Bool)) :
    ∀ fc, sendsOf (forwardItems fc (framesOf bs ++ rest)).1
        = bs.map (fun b => RelayEvent.sendAudio b false)
          ++ sendsOf (forwardItems (fc + bs.length) rest).1
      ∧ (forwardItems fc (framesOf bs ++ rest)).1.filter RelayEvent.isNotify
        = (forwardItems (fc + bs.length) rest).1.filter RelayEvent.isNotify
      ∧ (forwardItems fc (framesOf bs ++ rest)).2
        = (forwardItems (fc + bs.length) rest).2 := by
  induction bs with
  | nil => intro fc; simp [framesOf]
  | cons b bs ih =>
      intro fc
      have h := ih (fc + 1)
      cases hdbg : (fc + 1 == 1) <;>
        simp [framesOf, forwardItems, hdbg, sendsOf, List.filter_append,
          RelayEvent.isSend, RelayEvent.isNotify] at h ⊢ <;>
        · refine ⟨?_, ?_, ?_⟩
          · rw [h.1]; ring_nf
          · rw [h.2.1]; ring_nf
          · rw [h.2.2]; ring_nf

/- ### Claims -/

/-- Claim C1: for a queue of `N` audio frames followed by one segment-end
marker, none of whose sends raise, the avatar connection observes exactly
`N` `send_audio(bytes, end=False)` calls carrying the frames' bytes in
enqueue order, followed by exactly one `send_audio(b"", end=True)` call. -/
theorem c1_forward_order (bs : List (List Nat)) :
    sendsOf (runMainTask (framesOf bs ++ [(AudioItem.audioSegmentEnd, false)])).1
      = bs.map (fun b => RelayEvent.sendAudio b false)
        ++ [RelayEvent.sendAudio [] true] := by
  rw [runMainTask, (forwardItems_frames bs _ 0).1]
  simp [forwardItems, sendsOf, RelayEvent.isSend]

/-- Claim C2 counterexample: enqueue two audio frames where the first
frame's `send_audio` raises.  The claim says the failure is logged and the
loop continues with the next item; in the code the `try`/`except` wraps
the whole `async for` loop, so the second frame is never sent and the loop
terminates.  The trace shows exactly one send attempt, the error log, and
the errored-termination flag set. -/
theorem c2_counterexample :
    (runMainTask
        [(AudioItem.audioFrame [1], true), (AudioItem.audioFrame [2], false)]).1
      = [RelayEvent.logDebugFirstFrame, RelayEvent.sendAudio [1] false,
        RelayEvent.logErrorMainTask]
    ∧ (runMainTask
        [(AudioItem.audioFrame [1], true), (AudioItem.audioFrame [2], false)]).2.2
      = true := by
  exact ⟨rfl, rfl⟩

/-- Claim C2 amended: if relaying a single item to the avatar connection
fails with a non-cancellation exception, the failure is logged
(`logger.error` fires) but the forwarding loop TERMINATES: items enqueued
after the failing one are never forwarded, because the exception handler
sits outside the `async for` loop. -/
theorem c2_failure_terminates_loop (fc : Nat) (data : List Nat)
    (rest : List (AudioItem × Bool)) :
    ((forwardItems fc ((AudioItem.audioFrame data, true) :: rest)).1
        = (if fc + 1 == 1 then [RelayEvent.logDebugFirstFrame] else [])
          ++ [RelayEvent.sendAudio data false, RelayEvent.logErrorMainTask]
      ∧ (forwardItems fc ((AudioItem.audioFrame data, true) :: rest)).2.2 = true)
    ∧ ((forwardItems fc ((AudioItem.audioSegmentEnd, true) :: rest)).1
        = [RelayEvent.logDebugSegmentEnd, RelayEvent.sendAudio [] true,
          RelayEvent.logErrorMainTask]
      ∧ (forwardItems fc ((AudioItem.audioSegmentEnd, true) :: rest)).2.2
        = true) := by
  cases hdbg : (fc + 1 == 1) <;> simp [forwardItems, hdbg]

/-- Claim C4: when the forwarder consumes a segment-end marker (whose
empty end-of-segment send does not raise), it emits, in order, the
`send_audio(b"", end=True)` call and then exactly one
`notify_playback_finished(playback_position=0.0, interrupted=False)` call,
and continues with the per-segment frame counter reset to zero; over a
whole segment of `N` frames plus the marker, `notify_playback_finished`
occurs exactly once and the final frame counter is zero. -/
theorem c4_segment_end (fc : Nat) (rest : List (AudioItem × Bool))
    (bs : List (List Nat)) :
    forwardItems fc ((AudioItem.audioSegmentEnd, false) :: rest)
      = (RelayEvent.logDebugSegmentEnd :: RelayEvent.sendAudio [] true ::
          RelayEvent.notifyPlaybackFinished 0 false :: (forwardItems 0 rest).1,
         (forwardItems 0 rest).2)
    ∧ (runMainTask
          (framesOf bs ++ [(AudioItem.audioSegmentEnd, false)])).1.filter
        RelayEvent.isNotify
      = [RelayEvent.notifyPlaybackFinished 0 false]
    ∧ (runMainTask (framesOf bs ++ [(AudioItem.audioSegmentEnd, false)])).2.1
      = 0 := by
  refine ⟨by simp [forwardItems], ?_, ?_⟩
  · rw [runMainTask, (forwardItems_frames bs _ 0).2.1]
    simp [forwardItems, RelayEvent.isNotify]
  · rw [runMainTask]
    have h := (forwardItems_frames bs [(AudioItem.audioSegmentEnd, false)] 0).2.2
    rw [Prod.ext_iff] at h
    rw [h.1]
    simp [forwardItems]

/-- Claim C5: if any one of api key, app id, or avatar id is falsy both as
an explicit constructor argument and in its environment fallback, the
constructor raises `SpatialRealException`.  The raise is synchronous and
happens before any network activity: the constructor makes no collaborator
call at all, and since it yields no session object, the avatar
connection's `init()` (which only `start` invokes, on a constructed
session) can never be invoked. -/
theorem c5_missing_config (apiKey appId avatarId ce ie pid : Option String)
    (env : Env)
    (h : truthy (pyOr apiKey env.spatialrealApiKey) = false
       ∨ truthy (pyOr appId env.spatialrealAppId) = false
       ∨ truthy (pyOr avatarId env.spatialrealAvatarId) = false) :
    isConfigError (AvatarSession.construct apiKey appId avatarId ce ie pid env)
      = true
    ∧ ∀ st, AvatarSession.construct apiKey appId avatarId ce ie pid env
        ≠ Except.ok st := by
  have hmain :
      isConfigError (AvatarSession.construct apiKey appId avatarId ce ie pid env)
        = true := by
    unfold AvatarSession.construct
    rcases h with h | h | h
    · simp [h, isConfigError]
    · by_cases hk : truthy (pyOr apiKey env.spatialrealApiKey) <;>
        simp [hk, h, isConfigError]
    · by_cases hk : truthy (pyOr apiKey env.spatialrealApiKey) <;>
        by_cases ha : truthy (pyOr appId env.spatialrealAppId) <;>
        simp [hk, ha, h, isConfigError]
  refine ⟨hmain, ?_⟩
  intro st hok
  rw [hok] at hmain
  simp [isConfigError] at hmain

/-- Claim C5 witness: with no explicit arguments and an empty environment,
construction fails with `SpatialRealException` and yields no session. -/
theorem c5_missing_config_witness :
    (truthy (pyOr none envEmpty.spatialrealApiKey) = false
       ∨ truthy (pyOr none envEmpty.spatialrealAppId) = false
       ∨ truthy (pyOr none envEmpty.spatialrealAvatarId) = false)
    ∧ (isConfigError
          (AvatarSession.construct none none none none none none envEmpty)
        = true
      ∧ ∀ st, AvatarSession.construct none none none none none none envEmpty
          ≠ Except.ok st) :=
  ⟨Or.inl (by decide),
    c5_missing_config none none none none none none envEmpty (Or.inl (by decide))⟩

/-- `start` on an already-initialized session: the double-start guard
returns at once with only the warning log. -/
theorem start_noop_of_initialized (st : SessionFields) (a : Nat)
    (t : Option Nat) (rn : String) (u k s : Option String) (env : Env)
    (n : Nat) (b : StartBehavior) (h : st.initialized = true) :
    AvatarSession.start st a t rn u k s env n b
      = { state := st, trace := [StartEvent.logWarnAlreadyInitialized],
          error := none } := by
  unfold AvatarSession.start
  rw [h]
  simp

/-- A `start` that raises no error from a non-initialized session took the
full success path, whose final assignment sets `_initialized = True`. -/
theorem start_ok_initialized (st : SessionFields) (a : Nat) (t : Option Nat)
    (rn : String) (u k s : Option String) (env : Env) (n : Nat)
    (b : StartBehavior) (hinit : st.initialized = false)
    (hok : (AvatarSession.start st a t rn u k s env n b).error = none) :
    (AvatarSession.start st a t rn u k s env n b).state.initialized = true := by
  unfold AvatarSession.start at hok ⊢
  rw [hinit] at hok ⊢
  simp only [Bool.false_eq_true, if_false] at hok ⊢
  split at hok
  next h1 =>
    rw [if_pos h1]
    simp at hok
  next h1 =>
    rw [if_neg h1]
    split at hok
    next h2 =>
      rw [if_pos h2]
      simp at hok
    next h2 =>
      rw [if_neg h2]
      split at hok
      next h3 =>
        rw [if_pos h3]
        simp at hok
      next h3 =>
        rw [if_neg h3]

/-- Claim C6: a second call to `start` on a session whose first `start`
succeeded is a no-op: it logs a warning, makes no connection call
(`init`/`start` absent from the trace, which is just the warning), raises
nothing, and leaves every internal field unchanged. -/
theorem c6_double_start (st : SessionFields) (a1 a2 : Nat)
    (t1 t2 : Option Nat) (rn1 rn2 : String)
    (u1 k1 s1 u2 k2 s2 : Option String) (env1 env2 : Env) (n1 n2 : Nat)
    (b1 b2 : StartBehavior)
    (hinit : st.initialized = false)
    (hok : (AvatarSession.start st a1 t1 rn1 u1 k1 s1 env1 n1 b1).error = none) :
    AvatarSession.start (AvatarSession.start st a1 t1 rn1 u1 k1 s1 env1 n1 b1).state
        a2 t2 rn2 u2 k2 s2 env2 n2 b2
      = { state := (AvatarSession.start st a1 t1 rn1 u1 k1 s1 env1 n1 b1).state,
          trace := [StartEvent.logWarnAlreadyInitialized],
          error := none } :=
  start_noop_of_initialized _ a2 t2 rn2 u2 k2 s2 env2 n2 b2
    (start_ok_initialized st a1 t1 rn1 u1 k1 s1 env1 n1 b1 hinit hok)

/-- Claim C6 witness: a successful concrete `start` of `stFresh` followed
by a second `start` which is the logged no-op. -/
theorem c6_double_start_witness :
    (stFresh.initialized = false
      ∧ (AvatarSession.start stFresh 0 none "room" none none none envLk 0
          ⟨false, false⟩).error = none)
    ∧ AvatarSession.start
        (AvatarSession.start stFresh 0 none "room" none none none envLk 0
          ⟨false, false⟩).state 1 (some 16000) "room2" none none none envEmpty 7
        ⟨true, true⟩
      = { state := (AvatarSession.start stFresh 0 none "room" none none none
            envLk 0 ⟨false, false⟩).state,
          trace := [StartEvent.logWarnAlreadyInitialized],
          error := none } :=
  ⟨⟨rfl, rfl⟩,
    c6_double_start stFresh 0 1 none (some 16000) "room" "room2" none none none
      none none none envLk envEmpty 0 7 ⟨false, false⟩ ⟨true, true⟩ rfl rfl⟩

/-- Claim C3 counterexample: `start` a fresh session with valid LiveKit
credentials and make the connection's `init()` raise.  The error does
surface to the caller, but the object's internal fields are NOT as they
were before the failed `start`: `_agent_session` and `_avatarkit_session`
were assigned before the failing `await` and are never rolled back, so the
resulting state differs from `stFresh`. -/
theorem c3_counterexample :
    (AvatarSession.start stFresh 0 none "room" none none none envLk 0
        ⟨true, false⟩).error.isSome = true
    ∧ (AvatarSession.start stFresh 0 none "room" none none none envLk 0
        ⟨true, false⟩).state.avatarkitSession
      ≠ stFresh.avatarkitSession
    ∧ (AvatarSession.start stFresh 0 none "room" none none none envLk 0
        ⟨true, false⟩).state.agentSession
      ≠ stFresh.agentSession := by
  refine ⟨rfl, ?_, ?_⟩ <;> decide

/-- Claim C3 amended: when establishing the remote avatar connection fails
(the connection's `init()` or `start()` raises), the error surfaces to the
caller of `start` and no partial session becomes active — `_initialized`
stays `False`, and no forwarder task or audio buffer is created
(`_main_task` and `_audio_buffer` are unchanged) — but the object is not
rolled back: `_agent_session` holds the new agent session and
`_avatarkit_session` holds the freshly-built, never-started client. -/
theorem c3_start_failure (st : SessionFields) (a : Nat) (t : Option Nat)
    (rn : String) (u k s : Option String) (env : Env) (n : Nat)
    (b : StartBehavior)
    (hinit : st.initialized = false)
    (hu : truthy (pyOr u env.livekitUrl) = true)
    (hk : truthy (pyOr k env.livekitApiKey) = true)
    (hs : truthy (pyOr s env.livekitApiSecret) = true)
    (hfail : b.initRaises = true ∨ b.connStartRaises = true) :
    (AvatarSession.start st a t rn u k s env n b).error.isSome = true
    ∧ (AvatarSession.start st a t rn u k s env n b).state.initialized = false
    ∧ (AvatarSession.start st a t rn u k s env n b).state.mainTask = st.mainTask
    ∧ (AvatarSession.start st a t rn u k s env n b).state.audioBuffer
      = st.audioBuffer
    ∧ (AvatarSession.start st a t rn u k s env n b).state.agentSession = some a
    ∧ (AvatarSession.start st a t rn u k s env n b).state.avatarkitSession.isSome
      = true := by
  unfold AvatarSession.start
  rw [hinit]
  simp only [Bool.false_eq_true, if_false, hu, hk, hs, Bool.not_true,
    Bool.false_or, Bool.or_self]
  rcases hb : b.initRaises with _ | _
  · rcases hfail with hfail | hfail
    · rw [hb] at hfail; exact absurd hfail (by simp)
    · simp [hb, hfail, hinit]
  · simp [hb, hinit]

/-- Claim C3 witness: the amended behaviour at a concrete failing start. -/
theorem c3_start_failure_witness :
    (stFresh.initialized = false
      ∧ truthy (pyOr none envLk.livekitUrl) = true
      ∧ truthy (pyOr none envLk.livekitApiKey) = true
      ∧ truthy (pyOr none envLk.livekitApiSecret) = true
      ∧ ((true : Bool) = true ∨ (false : Bool) = true))
    ∧ ((AvatarSession.start stFresh 0 none "room" none none none envLk 0
          ⟨true, false⟩).error.isSome = true
      ∧ (AvatarSession.start stFresh 0 none "room" none none none envLk 0
          ⟨true, false⟩).state.initialized = false
      ∧ (AvatarSession.start stFresh 0 none "room" none none none envLk 0
          ⟨true, false⟩).state.mainTask = stFresh.mainTask
      ∧ (AvatarSession.start stFresh 0 none "room" none none none envLk 0
          ⟨true, false⟩).state.audioBuffer = stFresh.audioBuffer
      ∧ (AvatarSession.start stFresh 0 none "room" none none none envLk 0
          ⟨true, false⟩).state.agentSession = some 0
      ∧ (AvatarSession.start stFresh 0 none "room" none none none envLk 0
          ⟨true, false⟩).state.avatarkitSession.isSome = true) :=
  ⟨⟨rfl, by decide, by decide, by decide, Or.inl rfl⟩,
    c3_start_failure stFresh 0 none "room" none none none envLk 0
      ⟨true, false⟩ rfl (by decide) (by decide) (by decide) (Or.inl rfl)⟩

/-- Claim C10: whenever `start` builds the connection descriptor — for
every session state, every start argument, every environment, every
collaborator behaviour — the descriptor's `expire_at` is exactly one hour
(3600 seconds) after the `datetime.now(timezone.utc)` reading taken inside
`start`; no constructor argument, start argument, or environment variable
influences it. -/
theorem c10_expiry (st : SessionFields) (a : Nat) (t : Option Nat)
    (rn : String) (u k s : Option String) (env : Env) (n : Nat)
    (b : StartBehavior)
    (hinit : st.initialized = false)
    (hu : truthy (pyOr u env.livekitUrl) = true)
    (hk : truthy (pyOr k env.livekitApiKey) = true)
    (hs : truthy (pyOr s env.livekitApiSecret) = true) :
    ∃ d, (AvatarSession.start st a t rn u k s env n b).state.avatarkitSession
        = some d
      ∧ d.expireAt = n + 3600 := by
  unfold AvatarSession.start
  rw [hinit]
  simp only [Bool.false_eq_true, if_false, hu, hk, hs, Bool.not_true,
    Bool.false_or, Bool.or_self]
  rcases hb : b.initRaises with _ | _ <;>
    rcases hb2 : b.connStartRaises with _ | _ <;>
    exact ⟨_, rfl, rfl⟩

/-- Claim C10 witness: the expiry of the descriptor built by a concrete
`start` at time `n = 1000` is `4600`. -/
theorem c10_expiry_witness :
    (stFresh.initialized = false
      ∧ truthy (pyOr none envLk.livekitUrl) = true
      ∧ truthy (pyOr none envLk.livekitApiKey) = true
      ∧ truthy (pyOr none envLk.livekitApiSecret) = true)
    ∧ ∃ d, (AvatarSession.start stFresh 0 none "room" none none none envLk 1000
          ⟨false, false⟩).state.avatarkitSession = some d
        ∧ d.expireAt = 1000 + 3600 :=
  ⟨⟨rfl, by decide, by decide, by decide⟩,
    c10_expiry stFresh 0 none "room" none none none envLk 1000 ⟨false, false⟩
      rfl (by decide) (by decide) (by decide)⟩

/-- An `aclose` whose audio-buffer close does not raise completes without
error, clears the task handle, the buffer, and the connection handle, and
calls the connection's `close()` at most once. -/
theorem aclose_ok (st : SessionFields) (b : CloseBehavior)
    (h : b.bufferCloseRaises = false) :
    (AvatarSession.aclose st b).error = none
    ∧ (AvatarSession.aclose st b).state.mainTask = false
    ∧ (AvatarSession.aclose st b).state.audioBuffer = none
    ∧ (AvatarSession.aclose st b).state.avatarkitSession = none
    ∧ connCloseCount (AvatarSession.aclose st b).trace ≤ 1 := by
  unfold AvatarSession.aclose AvatarSession.closeConnStep
  rcases hm : st.mainTask <;> rcases hab : st.audioBuffer <;>
    rcases hs : st.avatarkitSession <;>
    rcases hc : b.connCloseRaises <;>
    simp [h, hm, hab, hs, hc, connCloseCount]

/-- `aclose` on a fully torn-down session does nothing: empty trace, no
error, state unchanged. -/
theorem aclose_inert (st : SessionFields) (b : CloseBehavior)
    (h1 : st.mainTask = false) (h2 : st.audioBuffer = none)
    (h3 : st.avatarkitSession = none) :
    AvatarSession.aclose st b = { state := st, trace := [], error := none } := by
  unfold AvatarSession.aclose AvatarSession.closeConnStep
  simp [h1, h2, h3]

/-- Claim C7: two successive `aclose` calls, the first of whose
audio-buffer close succeeds, invoke the connection's `close()` at most
once in total; the second call makes no `close()` call at all and raises
nothing. -/
theorem c7_double_close (st : SessionFields) (b1 b2 : CloseBehavior)
    (h : b1.bufferCloseRaises = false) :
    (AvatarSession.aclose st b1).error = none
    ∧ (AvatarSession.aclose (AvatarSession.aclose st b1).state b2).error = none
    ∧ connCloseCount (AvatarSession.aclose st b1).trace
        + connCloseCount
            (AvatarSession.aclose (AvatarSession.aclose st b1).state b2).trace
      ≤ 1
    ∧ connCloseCount
        (AvatarSession.aclose (AvatarSession.aclose st b1).state b2).trace
      = 0 := by
  obtain ⟨he, hm, hab, hs, hcount⟩ := aclose_ok st b1 h
  have h2 := aclose_inert (AvatarSession.aclose st b1).state b2 hm hab hs
  rw [h2]
  exact ⟨he, rfl, by simpa [connCloseCount] using hcount, by simp [connCloseCount]⟩

/-- Claim C7 witness: two concrete closes of the active session. -/
theorem c7_double_close_witness :
    (CloseBehavior.mk false false).bufferCloseRaises = false
    ∧ ((AvatarSession.aclose stActive ⟨false, false⟩).error = none
      ∧ (AvatarSession.aclose (AvatarSession.aclose stActive ⟨false, false⟩).state
          ⟨false, true⟩).error = none
      ∧ connCloseCount (AvatarSession.aclose stActive ⟨false, false⟩).trace
          + connCloseCount
              (AvatarSession.aclose
                (AvatarSession.aclose stActive ⟨false, false⟩).state
                ⟨false, true⟩).trace
        ≤ 1
      ∧ connCloseCount
          (AvatarSession.aclose (AvatarSession.aclose stActive ⟨false, false⟩).state
            ⟨false, true⟩).trace
        = 0) :=
  ⟨rfl, c7_double_close stActive ⟨false, false⟩ ⟨false, true⟩ rfl⟩

/-- Claim C8 counterexample: close the active session while the audio
buffer's `aclose()` raises.  The claim says the remaining teardown steps
are still attempted; in the code the buffer close is not wrapped in any
`try`, so the exception propagates out of `aclose`, the connection's
`close()` is never called, and the internal state is not reset. -/
theorem c8_counterexample :
    (AvatarSession.aclose stActive ⟨true, false⟩).error.isSome = true
    ∧ connCloseCount (AvatarSession.aclose stActive ⟨true, false⟩).trace = 0
    ∧ (AvatarSession.aclose stActive ⟨true, false⟩).state.avatarkitSession.isSome
      = true
    ∧ (AvatarSession.aclose stActive ⟨true, false⟩).state.initialized = true := by
  exact ⟨rfl, rfl, rfl, rfl⟩

/-- Claim C8 amended: the forwarder-cancel step swallows the cancellation,
and the connection-close step is guarded — an error from the connection's
`close()` is logged and swallowed while the `finally` block still clears
the connection handle and the initialized flag — but the audio-buffer
close step is NOT independently guarded: if it raises, `aclose` propagates
the exception, and neither the connection close nor the state reset is
attempted. -/
theorem c8_close_guarding (st : SessionFields) (b : CloseBehavior)
    (hs : st.avatarkitSession.isSome = true) :
    (b.bufferCloseRaises = false →
      (AvatarSession.aclose st b).error = none
      ∧ (AvatarSession.aclose st b).state.avatarkitSession = none
      ∧ (AvatarSession.aclose st b).state.initialized = false
      ∧ connCloseCount (AvatarSession.aclose st b).trace = 1)
    ∧ (b.bufferCloseRaises = true → st.audioBuffer.isSome = true →
      (AvatarSession.aclose st b).error.isSome = true
      ∧ connCloseCount (AvatarSession.aclose st b).trace = 0
      ∧ (AvatarSession.aclose st b).state.avatarkitSession
        = st.avatarkitSession
      ∧ (AvatarSession.aclose st b).state.initialized = st.initialized) := by
  rcases hsd : st.avatarkitSession with _ | d
  · rw [hsd] at hs; simp at hs
  · constructor
    · intro hb
      unfold AvatarSession.aclose AvatarSession.closeConnStep
      rcases hm : st.mainTask <;> rcases hab : st.audioBuffer <;>
        rcases hc : b.connCloseRaises <;>
        simp [hb, hm, hab, hsd, hc, connCloseCount]
    · intro hb hbuf
      rcases habd : st.audioBuffer with _ | sr
      · rw [habd] at hbuf; simp at hbuf
      · unfold AvatarSession.aclose
        rcases hm : st.mainTask <;>
          simp [hb, hm, habd, hsd, connCloseCount]

/-- Claim C8 witness: the amended behaviour at the active session whose
connection `close()` raises (swallowed) and, in the second branch
hypothesis form, the unguarded buffer close. -/
theorem c8_close_guarding_witness :
    stActive.avatarkitSession.isSome = true
    ∧ (((CloseBehavior.mk false true).bufferCloseRaises = false →
        (AvatarSession.aclose stActive ⟨false, true⟩).error = none
        ∧ (AvatarSession.aclose stActive ⟨false, true⟩).state.avatarkitSession
          = none
        ∧ (AvatarSession.aclose stActive ⟨false, true⟩).state.initialized = false
        ∧ connCloseCount (AvatarSession.aclose stActive ⟨false, true⟩).trace = 1)
      ∧ ((CloseBehavior.mk false true).bufferCloseRaises = true →
        stActive.audioBuffer.isSome = true →
        (AvatarSession.aclose stActive ⟨false, true⟩).error.isSome = true
        ∧ connCloseCount (AvatarSession.aclose stActive ⟨false, true⟩).trace = 0
        ∧ (AvatarSession.aclose stActive ⟨false, true⟩).state.avatarkitSession
          = stActive.avatarkitSession
        ∧ (AvatarSession.aclose stActive ⟨false, true⟩).state.initialized
          = stActive.initialized)) :=
  ⟨rfl, c8_close_guarding stActive ⟨false, true⟩ rfl⟩

/-- Claim C9: while the session is active (the connection handle is set),
every `clear_buffer` event spawns exactly one detached interrupt task, and
each such task makes exactly one `interrupt()` call on the avatar
connection; if that call raises, the failure is logged as a warning and
the task propagates nothing to the event source or caller. -/
theorem c9_interrupt (sess : Option ConnDescriptor) (failures : List Bool)
    (h : sess.isSome = true) :
    (AvatarSession.onClearBuffer sess failures).length = failures.length
    ∧ ∀ r ∈ AvatarSession.onClearBuffer sess failures,
        r.1.count InterruptEvent.connInterrupt = 1 ∧ r.2 = none := by
  rcases sess with _ | d
  · simp at h
  · refine ⟨by simp [AvatarSession.onClearBuffer], ?_⟩
    intro r hr
    rw [AvatarSession.onClearBuffer] at hr
    rcases List.mem_map.mp hr with ⟨f, _, rfl⟩
    rcases f <;> simp [AvatarSession.handleInterrupt]

/-- Claim C9 witness: two concrete `clear_buffer` events on the active
session, the first of whose interrupt calls raises. -/
theorem c9_interrupt_witness :
    (some descFresh).isSome = true
    ∧ ((AvatarSession.onClearBuffer (some descFresh) [true, false]).length
        = [true, false].length
      ∧ ∀ r ∈ AvatarSession.onClearBuffer (some descFresh) [true, false],
          r.1.count InterruptEvent.connInterrupt = 1 ∧ r.2 = none) :=
  ⟨rfl, c9_interrupt (some descFresh) [true, false] rfl⟩

end SpatialReal
